import Mathlib

/-!
Verification of the DNG batch converter (dng_batch_converter.py).

The script batch-converts camera RAW images (CR2/CR3) to DNG with an external
converter, falling back to copying the original file when conversion fails,
and renaming outputs to avoid collisions.

The shallow embedding below models the filesystem effects explicitly:

* a destination directory is a `DirState` (its path plus the list of file
  names currently present in it);
* the responses of the outside world for one file (whether the subprocess raises,
  its exit code and captured stderr, whether the expected output file exists
  after the subprocess returns, whether the fallback copy raises) are a
  `FileEnv`;
* the per-file step `process_file` mirrors the body of the loop in
  `process_single_folder`, returning the recorded result, the list of
  observable actions (`Event`s) and the updated directory state;
* `find_adobe_executable` mirrors the converter locator over a `SysEnv`
  (override environment variable, OS identifier, path-existence oracle).

The while loop of `generate_unique_path` is realized by the fuel-bounded
search `findFreeAux` with fuel `|files| + 1`; the lemmas below prove that the
result is exactly the semantics of the loop (the least collision counter whose
candidate name is free) and that such a counter always exists, which is the
termination argument for the unbounded loop in the source.
-/

/-- Numeric value of a decimal digit character (used to invert `Nat.repr`). -/
def digitVal (c : Char) : Nat := c.toNat - 48

/-- Reads a list of decimal digit characters back as a number
(left fold, most significant digit first). -/
def decodeDigits (l : List Char) : Nat :=
  l.foldl (fun a c => a * 10 + digitVal c) 0

/-- Model of the Python test `extension.startswith(".")`:
the first character of the string is a dot. -/
def startsWithDot (s : String) : Bool :=
  match s.data with
  | [] => false
  | c :: _ => c = '.'

/-- Mirror of the extension normalization at the top of
`generate_unique_path`: a leading dot is added when missing. -/
def normalizeExtension (extension : String) : String :=
  if startsWithDot extension then extension else "." ++ extension

/-- The candidate filename tried by `generate_unique_path` at a given
collision counter: counter 0 yields `base.ext`, counter k > 0 yields
`base_k.ext` (the Python f-string formats the counter in decimal,
modeled by `Nat.repr`). -/
def candidateName (base_name extension : String) (counter : Nat) : String :=
  if counter = 0 then base_name ++ extension
  else base_name ++ "_" ++ Nat.repr counter ++ extension

/-- Fuel-bounded realization of the collision-search while loop of
`generate_unique_path`: starting from `counter`, return the first counter
whose candidate name is not among `files`.  `findFreeAux_spec` proves that
with sufficient fuel the result is exactly the least free counter, i.e. the
value the unbounded loop in the source computes. -/
def findFreeAux (files : List String) (base_name extension : String) :
    Nat → Nat → Nat
  | 0, counter => counter
  | fuel + 1, counter =>
    if candidateName base_name extension counter ∈ files then
      findFreeAux files base_name extension fuel (counter + 1)
    else counter

/-- A destination directory: its path and the names of the files currently
present in it (the part of the filesystem `generate_unique_path` probes with
`file_path.exists()`). -/
structure DirState where
  dirPath : String
  files : List String
deriving DecidableEq

/-- Mirror of `generate_unique_path(dest_folder, base_name, extension)`:
returns `(filename, full_path, duplicate_counter)`.  The extension is
normalized to carry a leading dot; the counter starts at 0 and is bumped
while the candidate name collides with an existing file. -/
def generate_unique_path (dest_folder : DirState) (base_name extension : String) :
    String × String × Nat :=
  let ext := normalizeExtension extension
  let counter := findFreeAux dest_folder.files base_name ext
    (dest_folder.files.length + 1) 0
  let filename := candidateName base_name ext counter
  (filename, dest_folder.dirPath ++ "/" ++ filename, counter)

/-- Model of the Python `error_msg.split("\n")`: split a character list at
every newline, keeping empty segments. -/
def splitOnNewline : List Char → List (List Char)
  | [] => [[]]
  | c :: rest =>
    match splitOnNewline rest with
    | [] => [[]]
    | l :: ls => if c = '\n' then [] :: l :: ls else (c :: l) :: ls

/-- Model of the Python substring test `pat in line` on character lists. -/
def containsSub (pat : List Char) : List Char → Bool
  | [] => pat.isEmpty
  | c :: rest => pat.isPrefixOf (c :: rest) || containsSub pat rest

/-- Truthiness of `line.strip()`: the line contains a non-whitespace
character. -/
def stripNonempty (l : List Char) : Bool :=
  l.any (fun c => !c.isWhitespace)

/-- Mirror of the stderr filtering in `process_single_folder`:
keep the lines of the captured error output that do not contain "GPU"
and are not blank. -/
def clean_errors (error_msg : String) : List String :=
  ((splitOnNewline error_msg.data).filter
    (fun line => !containsSub ("GPU").data line && stripNonempty line)).map
    (fun l => String.mk l)

/-- Supported RAW extensions (case-insensitive in the source; membership is
tested on the lower-cased suffix). -/
def SUPPORTED_EXTENSIONS : List String := [".cr2", ".cr3"]

/-- Fixed Adobe DNG Converter flags: lossy compression and Fast Load data. -/
def ADOBE_ARGS : List String := ["-lossy", "-fl"]

/-- Name of the output subdirectory created in each source folder. -/
def OUTPUT_DIR_NAME : String := "DNG"

/-- Name of the per-folder log file. -/
def LOG_FILENAME : String := "conversion_log.txt"

/-- A RAW input file, by its stem and suffix (Python `Path.stem` and
`Path.suffix`; the suffix carries its leading dot). -/
structure RawFile where
  stem : String
  suffix : String
deriving DecidableEq

/-- The responses of the outside world during the processing of one file:
whether `subprocess.run` raises, the exit code and stderr it reports when it
returns, whether the expected output file exists on disk afterwards, and
whether `shutil.copy2` raises. -/
structure FileEnv where
  convRaises : Bool
  exitCode : Int
  stderr : String
  outputCreated : Bool
  copyRaises : Bool
deriving DecidableEq

/-- Observable actions of the per-file step. -/
inductive Event where
  | ranConverter (cmd : List String)
  | loggedErrorDetails (lines : List String)
  | copyAttempt (filename : String)
deriving DecidableEq

/-- Result recorded for one raw file, matching the three counters of
`stats`. -/
inductive FileResult where
  | converted
  | copied
  | errored
deriving DecidableEq

/-- The names passed to the fallback `shutil.copy2` attempts among a list of
events. -/
def copyAttemptNames (events : List Event) : List String :=
  events.filterMap (fun ev =>
    match ev with
    | Event.copyAttempt name => some name
    | _ => none)

/-- Mirror of the body of the per-file loop in `process_single_folder`:
compute a unique DNG output name, invoke the converter, record `converted`
when the expected output file exists afterwards, and otherwise fall back to
copying the original under a fresh unique name built from the original
extension.  A raised exception from the subprocess or from the copy is
recorded as `errored`; nothing escapes the step. -/
def process_file (adobe_exe : String) (dest_path : DirState) (raw_file : RawFile)
    (env : FileEnv) : FileResult × List Event × DirState :=
  let r := generate_unique_path dest_path raw_file.stem ".dng"
  let dng_name := r.1
  let cmd := [adobe_exe] ++ ADOBE_ARGS ++
    ["-d", dest_path.dirPath, "-o", dng_name, raw_file.stem ++ raw_file.suffix]
  if env.convRaises then
    (FileResult.errored, [Event.ranConverter cmd], dest_path)
  else if env.outputCreated then
    (FileResult.converted, [Event.ranConverter cmd],
      { dest_path with files := dng_name :: dest_path.files })
  else
    let errs := clean_errors env.stderr
    let c := generate_unique_path dest_path raw_file.stem raw_file.suffix
    let copy_name := c.1
    let events := [Event.ranConverter cmd] ++
      (if errs.isEmpty then [] else [Event.loggedErrorDetails errs]) ++
      [Event.copyAttempt copy_name]
    if env.copyRaises then
      (FileResult.errored, events, dest_path)
    else
      (FileResult.copied, events,
        { dest_path with files := copy_name :: dest_path.files })

/-- Per-folder counters, as in `stats = dict(converted=0, copied=0, errors=0)`. -/
structure Stats where
  converted : Nat
  copied : Nat
  errors : Nat
deriving DecidableEq

/-- Increment the counter selected by a file result. -/
def bumpStats (stats : Stats) : FileResult → Stats
  | FileResult.converted => { stats with converted := stats.converted + 1 }
  | FileResult.copied => { stats with copied := stats.copied + 1 }
  | FileResult.errored => { stats with errors := stats.errors + 1 }

/-- The per-folder loop over the enumerated raw files: each file is handled
by `process_file` with the environment response `envs i` for the i-th file,
threading the destination directory state and the counters. -/
def processFiles (adobe_exe : String) (dest : DirState) :
    List RawFile → (Nat → FileEnv) → Nat → Stats → Stats × DirState
  | [], _, _, stats => (stats, dest)
  | f :: rest, envs, i, stats =>
    let step := process_file adobe_exe dest f (envs i)
    processFiles adobe_exe step.2.2 rest envs (i + 1) (bumpStats stats step.1)

/-- The responses of the outside world during the processing of one folder:
whether the source path exists and is a directory, whether creating the
output directory and opening the log file succeed, the enumerated raw
files, the initial contents of the output directory, and the per-file
environment responses. -/
structure FolderEnv where
  sourceValid : Bool
  mkdirOk : Bool
  loggerOk : Bool
  destInit : DirState
  raw_files : List RawFile
  fileEnvs : Nat → FileEnv

/-- Outcome of `process_single_folder`: one of the early returns, or the
final counters and directory state after the per-file loop. -/
inductive FolderOutcome where
  | skippedInvalid
  | mkdirFailed
  | loggerFailed
  | noRawFiles
  | processed (stats : Stats) (dest : DirState)
deriving DecidableEq

/-- Mirror of `process_single_folder`: the early returns for an invalid
source directory, a failed `mkdir` and a failed logger setup, the early
return when no supported raw files are found, and otherwise the per-file
loop starting from zeroed counters. -/
def process_single_folder (adobe_exe : String) (env : FolderEnv) : FolderOutcome :=
  if !env.sourceValid then FolderOutcome.skippedInvalid
  else if !env.mkdirOk then FolderOutcome.mkdirFailed
  else if !env.loggerOk then FolderOutcome.loggerFailed
  else if env.raw_files.isEmpty then FolderOutcome.noRawFiles
  else
    let r := processFiles adobe_exe env.destInit env.raw_files env.fileEnvs 0
      (Stats.mk 0 0 0)
    FolderOutcome.processed r.1 r.2

/-- The batch loop of `main`: every listed folder is processed in order, and
each one produces an outcome. -/
def processBatch (adobe_exe : String) (folders : List FolderEnv) : List FolderOutcome :=
  folders.map (process_single_folder adobe_exe)

/-- The environment the converter locator consults: the optional
`ADOBE_DNG_PATH` override, the value of `platform.system()`, and the
path-existence oracle. -/
structure SysEnv where
  envAdobePath : Option String
  system_os : String
  pathExists : String → Bool

/-- Outcome of `find_adobe_executable`: a usable path, or one of the two
process-terminating failures (`sys.exit`), with the printed diagnostics. -/
inductive LocateResult where
  | found (path : String)
  | exitUnsupportedOS (message : String)
  | exitNotFound (messages : List String)
deriving DecidableEq

/-- Default install path of the converter on Windows. -/
def WINDOWS_DEFAULT_PATH : String :=
  "C:\\Program Files\\Adobe\\Adobe DNG Converter\\Adobe DNG Converter.exe"

/-- Default install path of the converter on macOS. -/
def MACOS_DEFAULT_PATH : String :=
  "/Applications/Adobe DNG Converter.app/Contents/MacOS/Adobe DNG Converter"

/-- Mirror of the final existence check of `find_adobe_executable`: return
the chosen default path when it exists, else exit fatally, printing a
diagnostic that names the missing path and suggests the override variable. -/
def checkDefaultPath (env : SysEnv) (path : String) : LocateResult :=
  if env.pathExists path then LocateResult.found path
  else LocateResult.exitNotFound
    ["CRITICAL ERROR: Adobe DNG Converter not found at: " ++ path,
     "Please install it or set the ADOBE_DNG_PATH environment variable."]

/-- Mirror of the OS dispatch of `find_adobe_executable`: a hardcoded
default path for Windows and Darwin, a fatal exit on any other OS
identifier. -/
def findDefault (env : SysEnv) : LocateResult :=
  if env.system_os = "Windows" then checkDefaultPath env WINDOWS_DEFAULT_PATH
  else if env.system_os = "Darwin" then checkDefaultPath env MACOS_DEFAULT_PATH
  else LocateResult.exitUnsupportedOS
    ("Unsupported Operating System: " ++ env.system_os)

/-- Mirror of `find_adobe_executable`: when the override variable is set to
a truthy (non-empty) value naming an existing path, that value is returned
verbatim; in every other case control falls through to the OS-default
search. -/
def find_adobe_executable (env : SysEnv) : LocateResult :=
  match env.envAdobePath with
  | some env_path =>
    if env_path ≠ "" then
      if env.pathExists env_path then LocateResult.found env_path
      else findDefault env
    else findDefault env
  | none => findDefault env

/-- The override is usable exactly when it is set, truthy and names an
existing path. -/
def overrideUsable (env : SysEnv) : Bool :=
  match env.envAdobePath with
  | some env_path => !(env_path == "") && env.pathExists env_path
  | none => false

/-- Concrete folder environment used to exercise `process_single_folder` on
a run whose single file converts successfully. -/
def sampleFolderEnv : FolderEnv :=
  FolderEnv.mk true true true (DirState.mk "/p/DNG" []) [RawFile.mk "a" ".cr2"]
    (fun _ => FileEnv.mk false 0 "" true false)

/-! ### Decimal representation: `Nat.repr` is injective -/

theorem digitVal_digitChar {k : Nat} (h : k < 10) : digitVal (Nat.digitChar k) = k := by
  revert h; revert k; decide

theorem toDigitsCore_shift (b : Nat) :
    ∀ (fuel n : Nat) (ds : List Char),
      Nat.toDigitsCore b fuel n ds = Nat.toDigitsCore b fuel n [] ++ ds := by
  intro fuel
  induction fuel with
  | zero => intro n ds; simp [Nat.toDigitsCore]
  | succ f ih =>
    intro n ds
    simp only [Nat.toDigitsCore]
    by_cases h : n / b = 0
    · simp [h]
    · simp only [h, if_false]
      rw [ih (n / b) (Nat.digitChar (n % b) :: ds), ih (n / b) [Nat.digitChar (n % b)],
        List.append_assoc]
      rfl

theorem decode_append (l : List Char) (c : Char) :
    decodeDigits (l ++ [c]) = decodeDigits l * 10 + digitVal c := by
  simp [decodeDigits, List.foldl_append]

theorem decode_toDigitsCore :
    ∀ (fuel n : Nat), n < 10 ^ fuel →
      decodeDigits (Nat.toDigitsCore 10 fuel n []) = n := by
  intro fuel
  induction fuel with
  | zero =>
    intro n h
    simp only [pow_zero, Nat.lt_one_iff] at h
    subst h
    simp [Nat.toDigitsCore, decodeDigits]
  | succ f ih =>
    intro n h
    simp only [Nat.toDigitsCore]
    by_cases hd : n / 10 = 0
    · simp only [hd, if_true]
      have hn : n < 10 := by omega
      simp [decodeDigits, digitVal_digitChar (Nat.mod_lt n (by norm_num) : n % 10 < 10)]
      omega
    · simp only [hd, if_false]
      rw [toDigitsCore_shift, decode_append]
      have hlt : n / 10 < 10 ^ f := by
        rw [pow_succ, mul_comm] at h
        exact Nat.div_lt_of_lt_mul h
      rw [ih (n / 10) hlt]
      have := digitVal_digitChar (Nat.mod_lt n (by norm_num) : n % 10 < 10)
      omega

theorem decode_repr_data (n : Nat) : decodeDigits (Nat.repr n).data = n := by
  have h : n < 10 ^ (n + 1) := by
    calc n < 10 ^ n := Nat.lt_pow_self (by norm_num) n
    _ ≤ 10 ^ (n + 1) := Nat.pow_le_pow_right (by norm_num) (Nat.le_succ n)
  simpa [Nat.repr, Nat.toDigits] using decode_toDigitsCore (n + 1) n h

theorem nat_repr_injective : Function.Injective Nat.repr := by
  intro m n h
  have := congrArg (fun s => decodeDigits (String.data s)) h
  simpa [decode_repr_data] using this

/-! ### The candidate names tried by `generate_unique_path` are pairwise
distinct, hence a free one always exists in any finite directory -/

theorem candidateName_zero (b e : String) : candidateName b e 0 = b ++ e := rfl

theorem candidateName_succ (b e : String) (n : Nat) (h : n ≠ 0) :
    candidateName b e n = b ++ "_" ++ Nat.repr n ++ e := by
  simp [candidateName, h]

theorem candidateName_injective (b e : String) :
    Function.Injective (candidateName b e) := by
  intro m n h
  by_cases hm : m = 0 <;> by_cases hn : n = 0
  · omega
  · exfalso
    subst hm
    rw [candidateName_zero, candidateName_succ b e n hn] at h
    have hlen := congrArg String.length h
    rw [String.length_append, String.length_append, String.length_append,
      String.length_append] at hlen
    have hu : ("_" : String).length = 1 := rfl
    omega
  · exfalso
    subst hn
    rw [candidateName_zero, candidateName_succ b e m hm] at h
    have hlen := congrArg String.length h
    rw [String.length_append, String.length_append, String.length_append,
      String.length_append] at hlen
    have hu : ("_" : String).length = 1 := rfl
    omega
  · rw [candidateName_succ b e m hm, candidateName_succ b e n hn] at h
    have hdata := congrArg String.data h
    simp only [String.data_append] at hdata
    have h1 := List.append_cancel_right hdata
    have h2 := List.append_cancel_left h1
    exact nat_repr_injective (String.ext h2)

theorem exists_candidate_free (files : List String) (b e : String) :
    ∃ n, n ≤ files.length ∧ candidateName b e n ∉ files := by
  by_contra hc
  push_neg at hc
  have hmap : ∀ a ∈ Finset.range (files.length + 1),
      candidateName b e a ∈ files.toFinset := by
    intro a ha
    rw [List.mem_toFinset]
    exact hc a (Nat.lt_succ_iff.mp (Finset.mem_range.mp ha))
  have hinj : Set.InjOn (candidateName b e) (Finset.range (files.length + 1)) :=
    fun x _ y _ hxy => candidateName_injective b e hxy
  have hcard := Finset.card_le_card_of_injOn (candidateName b e) hmap hinj
  rw [Finset.card_range] at hcard
  have h2 := List.toFinset_card_le files
  omega

/-! ### The fuel-bounded search computes exactly the least free
counter -/

theorem findFreeAux_spec (files : List String) (b e : String) :
    ∀ (fuel counter : Nat),
      (∃ n, counter ≤ n ∧ n < counter + fuel ∧ candidateName b e n ∉ files) →
      candidateName b e (findFreeAux files b e fuel counter) ∉ files ∧
      counter ≤ findFreeAux files b e fuel counter ∧
      ∀ k, counter ≤ k → k < findFreeAux files b e fuel counter →
        candidateName b e k ∈ files := by
  intro fuel
  induction fuel with
  | zero =>
    intro c hex
    obtain ⟨n, h1, h2, _⟩ := hex
    omega
  | succ f ih =>
    intro c hex
    simp only [findFreeAux]
    by_cases hm : candidateName b e c ∈ files
    · rw [if_pos hm]
      obtain ⟨n, h1, h2, h3⟩ := hex
      have hne : n ≠ c := by
        intro he
        subst he
        exact h3 hm
      obtain ⟨r1, r2, r3⟩ := ih (c + 1) ⟨n, by omega, by omega, h3⟩
      refine ⟨r1, by omega, fun k hk1 hk2 => ?_⟩
      by_cases hkc : k = c
      · subst hkc; exact hm
      · exact r3 k (by omega) hk2
    · rw [if_neg hm]
      exact ⟨hm, le_refl c, fun k hk1 hk2 => by omega⟩

theorem generate_unique_path_spec (d : DirState) (b e : String) :
    (generate_unique_path d b e).1 =
      candidateName b (normalizeExtension e) (generate_unique_path d b e).2.2 ∧
    (generate_unique_path d b e).2.1 =
      d.dirPath ++ "/" ++ (generate_unique_path d b e).1 ∧
    candidateName b (normalizeExtension e) (generate_unique_path d b e).2.2 ∉ d.files ∧
    ∀ k < (generate_unique_path d b e).2.2,
      candidateName b (normalizeExtension e) k ∈ d.files := by
  obtain ⟨n, hn1, hn2⟩ := exists_candidate_free d.files b (normalizeExtension e)
  obtain ⟨r1, _, r3⟩ := findFreeAux_spec d.files b (normalizeExtension e)
    (d.files.length + 1) 0 ⟨n, by omega, by omega, hn2⟩
  exact ⟨rfl, rfl, r1, fun k hk => r3 k (by omega) hk⟩

theorem least_unique {P : Nat → Prop} {r s : Nat}
    (h1 : P r) (h2 : ∀ k < r, ¬P k) (h3 : P s) (h4 : ∀ k < s, ¬P k) : r = s := by
  rcases lt_trichotomy r s with h | h | h
  · exact absurd h1 (h4 r h)
  · exact h
  · exact absurd h3 (h2 s h)

theorem generate_unique_path_eq_of_least (d : DirState) (b e : String) (c : Nat)
    (h1 : candidateName b (normalizeExtension e) c ∉ d.files)
    (h2 : ∀ k < c, candidateName b (normalizeExtension e) k ∈ d.files) :
    generate_unique_path d b e =
      (candidateName b (normalizeExtension e) c,
       d.dirPath ++ "/" ++ candidateName b (normalizeExtension e) c, c) := by
  obtain ⟨s1, s2, s3, s4⟩ := generate_unique_path_spec d b e
  have ha : ∀ k < (generate_unique_path d b e).2.2,
      ¬candidateName b (normalizeExtension e) k ∉ d.files :=
    fun k hk => not_not_intro (s4 k hk)
  have hb : ∀ k < c, ¬candidateName b (normalizeExtension e) k ∉ d.files :=
    fun k hk => not_not_intro (h2 k hk)
  have hc : (generate_unique_path d b e).2.2 = c := least_unique s3 ha h1 hb
  have hname : (generate_unique_path d b e).1 =
      candidateName b (normalizeExtension e) c := by rw [s1, hc]
  have hpath : (generate_unique_path d b e).2.1 =
      d.dirPath ++ "/" ++ candidateName b (normalizeExtension e) c := by
    rw [s2, hname]
  exact Prod.ext hname (Prod.ext hpath hc)

/-! ### Claim theorems -/

/-- C1: No exception or error ever escapes the per-file or per-folder
processing step to abort the whole batch: every listed folder produces an
outcome, and a raised exception while processing one file (from the
subprocess invocation, or from the fallback copy) is counted as errored
while processing continues with the next file on the same directory
state. -/
theorem errors_never_abort_batch :
    (∀ (adobe_exe : String) (folders : List FolderEnv),
      (processBatch adobe_exe folders).length = folders.length) ∧
    (∀ (adobe_exe : String) (dest : DirState) (f : RawFile) (rest : List RawFile)
      (envs : Nat → FileEnv) (i : Nat) (stats : Stats),
      (envs i).convRaises = true →
      processFiles adobe_exe dest (f :: rest) envs i stats =
        processFiles adobe_exe dest rest envs (i + 1)
          (bumpStats stats FileResult.errored)) ∧
    (∀ (adobe_exe : String) (dest : DirState) (f : RawFile) (rest : List RawFile)
      (envs : Nat → FileEnv) (i : Nat) (stats : Stats),
      (envs i).convRaises = false → (envs i).outputCreated = false →
      (envs i).copyRaises = true →
      processFiles adobe_exe dest (f :: rest) envs i stats =
        processFiles adobe_exe dest rest envs (i + 1)
          (bumpStats stats FileResult.errored)) := by
  refine ⟨fun exe folders => ?_, fun exe dest f rest envs i stats h => ?_,
    fun exe dest f rest envs i stats h1 h2 h3 => ?_⟩
  · simp [processBatch]
  · simp only [processFiles, process_file, h, if_true]
  · simp only [processFiles, process_file, h1, h2, h3, if_true,
      Bool.false_eq_true, if_false]

/-- Witness for C1 at a concrete input: a batch of zero folders yields zero
outcomes, and a file whose subprocess invocation raises is recorded as
errored while the loop moves on to the remaining files. -/
theorem errors_never_abort_batch_witness :
    (processBatch "conv" []).length = ([] : List FolderEnv).length ∧
    processFiles "conv" (DirState.mk "/d/DNG" []) [RawFile.mk "a" ".cr2"]
        (fun _ => FileEnv.mk true 0 "" false false) 0 (Stats.mk 0 0 0) =
      processFiles "conv" (DirState.mk "/d/DNG" []) []
        (fun _ => FileEnv.mk true 0 "" false false) 1
        (bumpStats (Stats.mk 0 0 0) FileResult.errored) :=
  ⟨errors_never_abort_batch.1 "conv" [],
   errors_never_abort_batch.2.1 "conv" (DirState.mk "/d/DNG" [])
     (RawFile.mk "a" ".cr2") [] (fun _ => FileEnv.mk true 0 "" false false)
     0 (Stats.mk 0 0 0) rfl⟩

/-- C2: Whether a raw file is recorded as converted depends only on whether
the expected output file exists after the subprocess returns, never on the
exit code reported by the subprocess: two per-file runs differing only in the
exit code produce the identical result, events and directory state. -/
theorem classification_ignores_exit_code :
    ∀ (adobe_exe : String) (dest : DirState) (raw_file : RawFile)
      (env : FileEnv) (code : Int),
      process_file adobe_exe dest raw_file { env with exitCode := code } =
        process_file adobe_exe dest raw_file env := by
  intro adobe_exe dest raw_file env code
  rfl

/-- C3: `generate_unique_path` never returns a name that already exists in
the destination directory at call time, returns the full path under the
destination directory, and follows the collision algorithm: the returned
name is the candidate for the returned counter under the normalized
extension, and the candidate of every smaller counter collides with an existing
file (counter 0 tries `base.ext`; each collision bumps the counter to try
`base_k.ext`). -/
theorem generate_unique_path_correct :
    ∀ (dest_folder : DirState) (base_name extension : String),
      (generate_unique_path dest_folder base_name extension).1 ∉ dest_folder.files ∧
      (generate_unique_path dest_folder base_name extension).2.1 =
        dest_folder.dirPath ++ "/" ++
          (generate_unique_path dest_folder base_name extension).1 ∧
      (generate_unique_path dest_folder base_name extension).1 =
        candidateName base_name (normalizeExtension extension)
          (generate_unique_path dest_folder base_name extension).2.2 ∧
      ∀ k < (generate_unique_path dest_folder base_name extension).2.2,
        candidateName base_name (normalizeExtension extension) k ∈
          dest_folder.files := by
  intro d b e
  obtain ⟨s1, s2, s3, s4⟩ := generate_unique_path_spec d b e
  refine ⟨?_, s2, s1, s4⟩
  rw [s1]
  exact s3

/-- Witness for C3 at a concrete input: with `a.dng` already present, the
generator returns a fresh name, the full path under the destination, the
candidate of its counter, and reports the collision at counter 0. -/
theorem generate_unique_path_correct_witness :
    (generate_unique_path (DirState.mk "/p" ["a.dng"]) "a" "dng").1 ∉
      (DirState.mk "/p" ["a.dng"]).files ∧
    candidateName "a" (normalizeExtension "dng") 0 ∈
      (DirState.mk "/p" ["a.dng"]).files :=
  ⟨(generate_unique_path_correct (DirState.mk "/p" ["a.dng"]) "a" "dng").1,
   (generate_unique_path_correct (DirState.mk "/p" ["a.dng"]) "a" "dng").2.2.2 0
     (by decide)⟩

/-- C8: `generate_unique_path` reads the destination directory and creates
nothing, so its result depends only on the directory path and on which
names are present: two calls on directory states with the same path and the
same membership of names return the same (name, path, counter) triple.  In
particular, calling it twice in a row for the same (D, base, ext) without
creating the first returned path yields the same result both times. -/
theorem generate_unique_path_idempotent :
    ∀ (d d' : DirState) (base_name extension : String),
      d'.dirPath = d.dirPath →
      (∀ s, s ∈ d'.files ↔ s ∈ d.files) →
      generate_unique_path d' base_name extension =
        generate_unique_path d base_name extension := by
  intro d d' b e hpath hmem
  obtain ⟨_, _, s3, s4⟩ := generate_unique_path_spec d b e
  have h1' : candidateName b (normalizeExtension e)
      (generate_unique_path d b e).2.2 ∉ d'.files :=
    fun hc => s3 ((hmem _).mp hc)
  have h2' : ∀ k < (generate_unique_path d b e).2.2,
      candidateName b (normalizeExtension e) k ∈ d'.files :=
    fun k hk => (hmem _).mpr (s4 k hk)
  have e1 := generate_unique_path_eq_of_least d' b e
    (generate_unique_path d b e).2.2 h1' h2'
  have e2 := generate_unique_path_eq_of_least d b e
    (generate_unique_path d b e).2.2 s3 s4
  rw [e1, e2, hpath]

/-- Witness for C8 at a concrete input: two directory states listing the
same names (in different order) at the same path give the same result. -/
theorem generate_unique_path_idempotent_witness :
    generate_unique_path (DirState.mk "/p" ["b.dng", "a.dng"]) "a" ".dng" =
      generate_unique_path (DirState.mk "/p" ["a.dng", "b.dng"]) "a" ".dng" :=
  generate_unique_path_idempotent (DirState.mk "/p" ["a.dng", "b.dng"])
    (DirState.mk "/p" ["b.dng", "a.dng"]) "a" ".dng" rfl
    (by intro s; simp only [List.mem_cons, List.not_mem_nil]; tauto)

/-- C9: In any finite destination directory the collision-suffix search of
`generate_unique_path` terminates: some counter (in fact one at most the
number of files present) yields a candidate name not present in the
directory. -/
theorem collision_search_terminates :
    ∀ (dest_folder : DirState) (base_name extension : String),
      ∃ counter, counter ≤ dest_folder.files.length ∧
        candidateName base_name extension counter ∉ dest_folder.files :=
  fun d b e => exists_candidate_free d.files b e

theorem norm_dng : normalizeExtension ".dng" = ".dng" := by decide

theorem norm_of_dot {e : String} (h : startsWithDot e = true) :
    normalizeExtension e = e := by
  simp [normalizeExtension, h]

theorem cand_dng_one (s : String) : candidateName s ".dng" 1 = s ++ "_1.dng" := by
  rw [candidateName_succ s ".dng" 1 one_ne_zero, String.append_assoc,
    String.append_assoc]
  congr 1

theorem append_dng_ne_append_one (s : String) : s ++ ".dng" ≠ s ++ "_1.dng" := by
  intro h
  have hlen := congrArg String.length h
  rw [String.length_append, String.length_append] at hlen
  have h1 : (".dng" : String).length = 4 := rfl
  have h2 : ("_1.dng" : String).length = 6 := rfl
  omega

/-- C4: Two raw files with the same stem (e.g. differing supported
extensions) in one folder get non-colliding DNG output names: when the
conversion of the first file creates its output `stem.dng`, the output name
computed for the second file is `stem_1.dng`. -/
theorem same_stem_outputs_do_not_collide :
    ∀ (adobe_exe : String) (d : DirState) (stem suffix1 : String) (env1 : FileEnv),
      env1.convRaises = false → env1.outputCreated = true →
      stem ++ ".dng" ∉ d.files → stem ++ "_1.dng" ∉ d.files →
      (generate_unique_path d stem ".dng").1 = stem ++ ".dng" ∧
      (generate_unique_path
          (process_file adobe_exe d (RawFile.mk stem suffix1) env1).2.2
          stem ".dng").1 = stem ++ "_1.dng" ∧
      (generate_unique_path d stem ".dng").1 ≠
        (generate_unique_path
          (process_file adobe_exe d (RawFile.mk stem suffix1) env1).2.2
          stem ".dng").1 := by
  intro exe d s suf env h1 h2 h3 h4
  obtain ⟨dp, fl⟩ := d
  have hc0 : candidateName s (normalizeExtension ".dng") 0 ∉
      (DirState.mk dp fl).files := by
    rw [norm_dng, candidateName_zero]
    exact h3
  have hv0 : ∀ k < 0, candidateName s (normalizeExtension ".dng") k ∈
      (DirState.mk dp fl).files := fun k hk => absurd hk (Nat.not_lt_zero k)
  have e0 := generate_unique_path_eq_of_least (DirState.mk dp fl) s ".dng" 0 hc0 hv0
  rw [norm_dng, candidateName_zero] at e0
  have hd1 : (process_file exe (DirState.mk dp fl) (RawFile.mk s suf) env).2.2 =
      DirState.mk dp ((s ++ ".dng") :: fl) := by
    simp only [process_file, h1, h2, e0, Bool.false_eq_true, if_false, if_true]
  have hc1 : candidateName s (normalizeExtension ".dng") 1 ∉
      (DirState.mk dp ((s ++ ".dng") :: fl)).files := by
    rw [norm_dng, cand_dng_one]
    simp only [List.mem_cons, not_or]
    exact ⟨fun he => append_dng_ne_append_one s he.symm, h4⟩
  have hv1 : ∀ k < 1, candidateName s (normalizeExtension ".dng") k ∈
      (DirState.mk dp ((s ++ ".dng") :: fl)).files := by
    intro k hk
    have hk0 : k = 0 := by omega
    subst hk0
    rw [norm_dng, candidateName_zero]
    exact List.mem_cons_self _ _
  have e1 := generate_unique_path_eq_of_least
    (DirState.mk dp ((s ++ ".dng") :: fl)) s ".dng" 1 hc1 hv1
  rw [norm_dng, cand_dng_one] at e1
  refine ⟨by rw [e0], by rw [hd1, e1], ?_⟩
  rw [e0, hd1, e1]
  exact append_dng_ne_append_one s

/-- Witness for C4 at a concrete input: with an empty destination, the two
files IMG_0001.cr2 and IMG_0001.cr3 get the names IMG_0001.dng and
IMG_0001_1.dng. -/
theorem same_stem_outputs_do_not_collide_witness :
    (generate_unique_path (DirState.mk "/p/DNG" []) "IMG_0001" ".dng").1 =
      "IMG_0001" ++ ".dng" ∧
    (generate_unique_path
        (process_file "A" (DirState.mk "/p/DNG" [])
          (RawFile.mk "IMG_0001" ".cr2") (FileEnv.mk false 0 "" true false)).2.2
        "IMG_0001" ".dng").1 = "IMG_0001" ++ "_1.dng" ∧
    (generate_unique_path (DirState.mk "/p/DNG" []) "IMG_0001" ".dng").1 ≠
      (generate_unique_path
        (process_file "A" (DirState.mk "/p/DNG" [])
          (RawFile.mk "IMG_0001" ".cr2") (FileEnv.mk false 0 "" true false)).2.2
        "IMG_0001" ".dng").1 :=
  same_stem_outputs_do_not_collide "A" (DirState.mk "/p/DNG" []) "IMG_0001"
    ".cr2" (FileEnv.mk false 0 "" true false) rfl rfl (by decide) (by decide)

/-- C5: When the subprocess returns and the expected output file does not
exist, exactly one fallback copy attempt occurs (none when the output
exists), and the attempted copy name is built from the original
file extension (the candidate of the copy counter for the raw file
suffix), never from ".dng". -/
theorem fallback_copy_exactly_once_with_original_extension :
    ∀ (adobe_exe : String) (dest : DirState) (raw_file : RawFile) (env : FileEnv),
      env.convRaises = false →
      startsWithDot raw_file.suffix = true →
      copyAttemptNames (process_file adobe_exe dest raw_file env).2.1 =
        (if env.outputCreated then []
         else [candidateName raw_file.stem raw_file.suffix
           (generate_unique_path dest raw_file.stem raw_file.suffix).2.2]) := by
  intro exe dest rf env h1 h2
  obtain ⟨s1, _, _, _⟩ := generate_unique_path_spec dest rf.stem rf.suffix
  rw [norm_of_dot h2] at s1
  by_cases ho : env.outputCreated
  · simp [process_file, h1, ho, copyAttemptNames]
  · by_cases hcr : env.copyRaises <;>
      by_cases he : (clean_errors env.stderr).isEmpty <;>
      simp [process_file, h1, ho, hcr, he, copyAttemptNames, s1]

/-- Witness for C5 at a concrete input: a failed conversion of a.cr2 into an
empty destination directory triggers exactly one copy attempt, named
a.cr2. -/
theorem fallback_copy_exactly_once_witness :
    copyAttemptNames
        (process_file "A" (DirState.mk "/p/DNG" []) (RawFile.mk "a" ".cr2")
          (FileEnv.mk false 7 "boom" false false)).2.1 =
      (if (FileEnv.mk false 7 "boom" false false).outputCreated then []
       else [candidateName "a" ".cr2"
         (generate_unique_path (DirState.mk "/p/DNG" []) "a" ".cr2").2.2]) :=
  fallback_copy_exactly_once_with_original_extension "A" (DirState.mk "/p/DNG" [])
    (RawFile.mk "a" ".cr2") (FileEnv.mk false 7 "boom" false false) rfl (by decide)

theorem bump_total (stats : Stats) (res : FileResult) :
    (bumpStats stats res).converted + (bumpStats stats res).copied +
      (bumpStats stats res).errors =
    stats.converted + stats.copied + stats.errors + 1 := by
  cases res <;> simp [bumpStats] <;> omega

theorem processFiles_counts (adobe_exe : String) :
    ∀ (files : List RawFile) (dest : DirState) (envs : Nat → FileEnv) (i : Nat)
      (stats : Stats),
      (processFiles adobe_exe dest files envs i stats).1.converted +
        (processFiles adobe_exe dest files envs i stats).1.copied +
        (processFiles adobe_exe dest files envs i stats).1.errors =
      stats.converted + stats.copied + stats.errors + files.length := by
  intro files
  induction files with
  | nil => intro dest envs i stats; simp [processFiles]
  | cons f rest ih =>
    intro dest envs i stats
    simp only [processFiles, List.length_cons]
    rw [ih]
    rw [bump_total]
    omega

/-- C7: Each raw file is recorded as exactly one of converted, copied or
errored — every file result bumps exactly one counter by one — so whenever
the per-file loop of `process_single_folder` completes, the three counters
sum to the number of enumerated raw files. -/
theorem conversion_results_partition_counts :
    (∀ (stats : Stats) (res : FileResult),
      (bumpStats stats res).converted + (bumpStats stats res).copied +
        (bumpStats stats res).errors =
      stats.converted + stats.copied + stats.errors + 1) ∧
    (∀ (adobe_exe : String) (fenv : FolderEnv) (stats : Stats) (dest : DirState),
      process_single_folder adobe_exe fenv = FolderOutcome.processed stats dest →
      stats.converted + stats.copied + stats.errors = fenv.raw_files.length) := by
  refine ⟨bump_total, ?_⟩
  intro exe fenv stats dest h
  simp only [process_single_folder] at h
  cases hsv : fenv.sourceValid
  · rw [hsv] at h; simp at h
  · rw [hsv] at h
    simp only [Bool.not_true, Bool.false_eq_true, if_false] at h
    cases hmk : fenv.mkdirOk
    · rw [hmk] at h; simp at h
    · rw [hmk] at h
      simp only [Bool.not_true, Bool.false_eq_true, if_false] at h
      cases hlg : fenv.loggerOk
      · rw [hlg] at h; simp at h
      · rw [hlg] at h
        simp only [Bool.not_true, Bool.false_eq_true, if_false] at h
        cases hre : fenv.raw_files.isEmpty
        · rw [hre] at h
          simp only [Bool.false_eq_true, if_false,
            FolderOutcome.processed.injEq] at h
          obtain ⟨hstats, _⟩ := h
          rw [← hstats]
          have := processFiles_counts exe fenv.raw_files fenv.destInit
            fenv.fileEnvs 0 (Stats.mk 0 0 0)
          simpa using this
        · rw [hre] at h; simp at h

/-- Witness for C7 at a concrete input: a folder with one cr2 file whose
conversion succeeds ends with counters (1, 0, 0), summing to one. -/
theorem conversion_results_partition_counts_witness :
    process_single_folder "A" sampleFolderEnv =
      FolderOutcome.processed (Stats.mk 1 0 0) (DirState.mk "/p/DNG" ["a.dng"]) ∧
    (Stats.mk 1 0 0).converted + (Stats.mk 1 0 0).copied +
        (Stats.mk 1 0 0).errors =
      sampleFolderEnv.raw_files.length :=
  ⟨by decide, conversion_results_partition_counts.2 "A" sampleFolderEnv
    (Stats.mk 1 0 0) (DirState.mk "/p/DNG" ["a.dng"]) (by decide)⟩

theorem find_adobe_executable_of_some (env : SysEnv) (q : String)
    (h : env.envAdobePath = some q) :
    find_adobe_executable env =
      (if q ≠ "" then
        if env.pathExists q = true then LocateResult.found q
        else findDefault env
      else findDefault env) := by
  unfold find_adobe_executable
  rw [h]

theorem find_adobe_executable_of_none (env : SysEnv)
    (h : env.envAdobePath = none) :
    find_adobe_executable env = findDefault env := by
  unfold find_adobe_executable
  rw [h]

theorem find_eq_findDefault_of_unusable (env : SysEnv)
    (hu : overrideUsable env = false) :
    find_adobe_executable env = findDefault env := by
  unfold overrideUsable at hu
  cases henv : env.envAdobePath with
  | none => exact find_adobe_executable_of_none env henv
  | some q =>
    rw [find_adobe_executable_of_some env q henv]
    rw [henv] at hu
    have hu' : (!(q == "") && env.pathExists q) = false := hu
    by_cases hq : q = ""
    · rw [if_neg (not_not_intro hq)]
    · rw [if_pos hq]
      have hpe : env.pathExists q = false := by
        have hqb : (!(q == "")) = true := by
          simp [hq]
        rw [hqb, Bool.true_and] at hu'
        exact hu'
      rw [if_neg (by rw [hpe]; exact Bool.false_ne_true)]

/-- C6: The converter locator resolves in this order: a set, truthy
override naming an existing path is returned verbatim; otherwise the
OS-specific default path is chosen for Windows and Darwin; any other OS
identifier is a fatal unsupported-platform exit; and a chosen default path
that does not exist on disk is a fatal exit whose diagnostics name the
missing path and suggest the override variable. -/
theorem find_adobe_executable_resolution_order :
    ∀ (env : SysEnv) (p : String),
      (env.envAdobePath = some p → p ≠ "" → env.pathExists p = true →
        find_adobe_executable env = LocateResult.found p) ∧
      (overrideUsable env = false → env.system_os = "Windows" →
        find_adobe_executable env = checkDefaultPath env WINDOWS_DEFAULT_PATH) ∧
      (overrideUsable env = false → env.system_os = "Darwin" →
        find_adobe_executable env = checkDefaultPath env MACOS_DEFAULT_PATH) ∧
      (overrideUsable env = false → env.system_os ≠ "Windows" →
        env.system_os ≠ "Darwin" →
        find_adobe_executable env = LocateResult.exitUnsupportedOS
          ("Unsupported Operating System: " ++ env.system_os)) ∧
      (∀ path, env.pathExists path = false →
        checkDefaultPath env path = LocateResult.exitNotFound
          ["CRITICAL ERROR: Adobe DNG Converter not found at: " ++ path,
           "Please install it or set the ADOBE_DNG_PATH environment variable."]) := by
  intro env p
  refine ⟨?_, ?_, ?_, ?_, ?_⟩
  · intro h1 h2 h3
    rw [find_adobe_executable_of_some env p h1, if_pos h2, if_pos h3]
  · intro hu hos
    rw [find_eq_findDefault_of_unusable env hu]
    unfold findDefault
    rw [if_pos hos]
  · intro hu hos
    rw [find_eq_findDefault_of_unusable env hu]
    unfold findDefault
    rw [if_neg (by rw [hos]; decide), if_pos hos]
  · intro hu hw hd
    rw [find_eq_findDefault_of_unusable env hu]
    unfold findDefault
    rw [if_neg hw, if_neg hd]
  · intro path hp
    unfold checkDefaultPath
    rw [if_neg (by rw [hp]; exact Bool.false_ne_true)]

/-- Witness for C6 at concrete inputs: a set override naming an existing
path is returned verbatim; without a usable override, Windows and Darwin
pick their default paths; Linux is a fatal unsupported-platform exit; and a
missing default path is a fatal exit with the two diagnostic lines. -/
theorem find_adobe_executable_resolution_order_witness :
    find_adobe_executable (SysEnv.mk (some "/custom/dng") "Windows"
        (fun s => s == "/custom/dng")) = LocateResult.found "/custom/dng" ∧
    find_adobe_executable (SysEnv.mk none "Windows" (fun _ => false)) =
      checkDefaultPath (SysEnv.mk none "Windows" (fun _ => false))
        WINDOWS_DEFAULT_PATH ∧
    find_adobe_executable (SysEnv.mk none "Darwin" (fun _ => false)) =
      checkDefaultPath (SysEnv.mk none "Darwin" (fun _ => false))
        MACOS_DEFAULT_PATH ∧
    find_adobe_executable (SysEnv.mk none "Linux" (fun _ => false)) =
      LocateResult.exitUnsupportedOS ("Unsupported Operating System: " ++ "Linux") ∧
    checkDefaultPath (SysEnv.mk none "Darwin" (fun _ => false))
        MACOS_DEFAULT_PATH =
      LocateResult.exitNotFound
        ["CRITICAL ERROR: Adobe DNG Converter not found at: " ++
          MACOS_DEFAULT_PATH,
         "Please install it or set the ADOBE_DNG_PATH environment variable."] :=
  ⟨(find_adobe_executable_resolution_order
      (SysEnv.mk (some "/custom/dng") "Windows" (fun s => s == "/custom/dng"))
      "/custom/dng").1 rfl (by decide) (by decide),
   (find_adobe_executable_resolution_order
      (SysEnv.mk none "Windows" (fun _ => false)) "x").2.1 rfl rfl,
   (find_adobe_executable_resolution_order
      (SysEnv.mk none "Darwin" (fun _ => false)) "x").2.2.1 rfl rfl,
   (find_adobe_executable_resolution_order
      (SysEnv.mk none "Linux" (fun _ => false)) "x").2.2.2.1 rfl (by decide)
     (by decide),
   (find_adobe_executable_resolution_order
      (SysEnv.mk none "Darwin" (fun _ => false)) "x").2.2.2.2
     MACOS_DEFAULT_PATH rfl⟩

/-- C10: When the override environment variable is set but names a path
that does not exist, `find_adobe_executable` behaves exactly as if the
override were unset: it silently falls back to the OS-default search,
emitting no diagnostic about the override itself, so any subsequent fatal
diagnostic names only the default path. -/
theorem invalid_override_silently_ignored :
    ∀ (env : SysEnv) (p : String),
      env.envAdobePath = some p →
      env.pathExists p = false →
      find_adobe_executable env =
        find_adobe_executable (SysEnv.mk none env.system_os env.pathExists) := by
  intro env p h1 h2
  have hnone : findDefault (SysEnv.mk none env.system_os env.pathExists) =
      findDefault env := rfl
  rw [find_adobe_executable_of_some env p h1,
    find_adobe_executable_of_none (SysEnv.mk none env.system_os env.pathExists)
      rfl, hnone]
  by_cases hp : p = ""
  · rw [if_neg (not_not_intro hp)]
  · rw [if_pos hp, if_neg (by rw [h2]; exact Bool.false_ne_true)]

/-- Witness for C10 at a concrete input: an override naming a nonexistent
path gives the same outcome as no override at all. -/
theorem invalid_override_silently_ignored_witness :
    find_adobe_executable (SysEnv.mk (some "/bad/path") "Darwin"
        (fun _ => false)) =
      find_adobe_executable (SysEnv.mk none "Darwin" (fun _ => false)) :=
  invalid_override_silently_ignored
    (SysEnv.mk (some "/bad/path") "Darwin" (fun _ => false)) "/bad/path" rfl rfl
